import Mathlib

/-!
Shallow embedding of the Intermezzo transaction orchestration engine
(`ChainService` in `chain.service.ts`, `WalletService` in `wallet.service.ts`).

Modelling conventions:
* Algorand addresses are the base32 strings produced by `AlgorandEncoder.encodeAddress`;
  the embedding treats them as opaque strings.
* Canonical msgpack transaction encodings are modelled by the structured
  transaction value itself: the external codec is injective on the fields the
  service manipulates, so `decodeTransaction` / `encodeTransaction` are the
  identity in the model and the single group-field mutation is a record update.
* Byte strings (leases) are lists of bytes; the base64 transport encoding at
  process boundaries is external serialization and is modelled by passing the
  decoded bytes directly.
* `async` methods are pure functions of an explicit environment holding the
  responses of the external ledger node and custody service; where a claim
  is about which external calls happen, the function also returns the ordered
  trace of those calls.
* JavaScript numbers and bigints used for balances are modelled as `Int`
  (the code subtracts an unsigned minimum balance from a balance, and the
  result may be negative); round numbers and fees are `Nat`.
-/

namespace Intermezzo

/-- Algorand address in its encoded (base32 string) form. -/
abbrev Address := String

/-- Byte string (for leases), one `Nat` per byte. -/
abbrev Bytes := List Nat

/-- Transaction kinds crafted by `ChainService`: payment, asset transfer
(also used for opt-in and clawback), asset configuration (creation). -/
inductive TxKind where
  | pay
  | axfer
  | acfg
deriving DecidableEq, Repr

/-- Structured content of a crafted unsigned transaction, mirroring the fields
that `AlgorandTransactionCrafter` / `AssetTransferTxBuilder` /
`AssetParamsBuilder` set in `chain.service.ts`.  `amt = none` models a
builder on which `addAssetAmount` was never called (the code skips it when
the amount is `0`). -/
structure Tx where
  kind : TxKind
  snd : Address
  rcv : Address := ""
  /-- Asset sender (`addAssetSender`), set only by clawback crafting. -/
  asaSnd : Option Address := none
  assetId : Nat := 0
  amt : Option Int := none
  fee : Nat
  firstValid : Nat
  lastValid : Nat
  lease : Option Bytes := none
  note : Option String := none
  assetTotal : Nat := 0
  assetDecimals : Nat := 0
  grp : Option Nat := none
deriving DecidableEq, Repr

/-- Effective amount of a transaction: an absent amount field encodes zero. -/
def Tx.amountValue (t : Tx) : Int := t.amt.getD 0

/-- Error taxonomy of the service, named after the specification; the code
raises these as `Error` / `HttpErrorByCode` instances with the quoted
messages. -/
inductive Err where
  /-- `HttpErrorByCode[400]` raised around the builder lease check. -/
  | invalidField (msg : String)
  /-- `Error('Invalid users')` raised by `sendGroup` validation. -/
  | addressMismatch
  /-- empty-input rejection of the group id computation. -/
  | emptyGroup
  /-- `Error('Transaction Rejected: ...')` raised on a pool error. -/
  | rejected (msg : String)
  /-- `Error('Invalid sender')` raised when no signing route matches. -/
  | invalidSender
deriving DecidableEq, Repr

/-- Mirror of `TruncatedSuggestedParamsResponse`. -/
structure SuggestedParams where
  lastRound : Nat
  minFee : Nat
deriving DecidableEq, Repr

/-- Ledger-node interactions made by the crafting layer, for claims about
what happens before a rejection. -/
inductive LedgerCall where
  /-- GET `v2/transactions/params` (`getSuggestedParams`). -/
  | getParams
deriving DecidableEq, Repr

/-- Environment of `ChainService` for crafting: the node response used when
`getSuggestedParams` is called. -/
structure NodeEnv where
  params : SuggestedParams
deriving DecidableEq, Repr

/-- Model of `ChainService.parseLease`: the code base64-decodes the lease and performs
no length check here (the bytes are handed to the builder unchecked); in the
model the decoded bytes are passed through unchanged. -/
def parseLease (lease : Bytes) : Bytes := lease

/-- Modelled from the spec: `addLease` of the external `AssetTransferTxBuilder`
(the `@algorandfoundation/algo-models` library code is not part of the
repository).  Per the spec a lease "must decode exactly to 32 bytes or the
request is rejected"; the builder throws on other lengths, and
`craftAssetTransferTx` wraps that throw into `HttpErrorByCode[400]`
(`Invalid lease format`), modelled as `Err.invalidField`. -/
def addLease (t : Tx) (l : Bytes) : Except Err Tx :=
  if l.length = 32 then .ok { t with lease := some l }
  else .error (.invalidField "Invalid lease format")

/-- Payment crafting, `ChainService.craftPaymentTx` with suggested params in
hand: `crafter.pay(amount, from, to)` with fee and a 1000-round validity
window. -/
def craftPaymentTx (fromAddr toAddr : Address) (amount : Int)
    (sp : SuggestedParams) : Tx :=
  { kind := .pay, snd := fromAddr, rcv := toAddr, amt := some amount,
    fee := sp.minFee, firstValid := sp.lastRound,
    lastValid := sp.lastRound + 1000 }

/-- Asset-transfer crafting with suggested params in hand: the body of
`ChainService.craftAssetTransferTx` after the params lookup.  The builder
gets the amount only when it is nonzero, and the lease (after `parseLease`)
only when present; the lease step is the only failing one. -/
def craftAssetTransferTxCore (fromAddr toAddr : Address) (assetId : Nat)
    (amount : Int) (lease : Option Bytes) (note : Option String)
    (sp : SuggestedParams) : Except Err Tx :=
  let base : Tx :=
    { kind := .axfer, snd := fromAddr, rcv := toAddr, assetId := assetId,
      amt := if amount ≠ 0 then some amount else none,
      fee := sp.minFee, firstValid := sp.lastRound,
      lastValid := sp.lastRound + 1000, note := note }
  match lease with
  | none => .ok base
  | some l => addLease base (parseLease l)

/-- Model of `ChainService.craftAssetTransferTx`: when the caller supplies no suggested
params the service first fetches them from the node (`getSuggestedParams`),
a ledger interaction recorded in the returned trace. -/
def craftAssetTransferTx (env : NodeEnv) (fromAddr toAddr : Address)
    (assetId : Nat) (amount : Int) (lease : Option Bytes)
    (note : Option String) (sp? : Option SuggestedParams) :
    List LedgerCall × Except Err Tx :=
  match sp? with
  | some sp =>
      ([], craftAssetTransferTxCore fromAddr toAddr assetId amount lease note sp)
  | none =>
      ([.getParams],
        craftAssetTransferTxCore fromAddr toAddr assetId amount lease note env.params)

/-- Hash of a string, for the modelled group id computation. -/
def strHash (s : String) : Nat :=
  s.foldl (fun h c => (h * 131 + c.toNat) % (2 ^ 64)) 7

/-- Hash of an optional value given a hash of the value. -/
def optHash (f : α → Nat) : Option α → Nat
  | none => 5381
  | some a => (f a * 33 + 1) % (2 ^ 64)

/-- Hash of a byte list. -/
def bytesHash (b : Bytes) : Nat :=
  b.foldl (fun h x => (h * 257 + x + 1) % (2 ^ 64)) 11

/-- Hash of one canonical transaction encoding. -/
def txHash (t : Tx) : Nat :=
  let kindTag : Nat := match t.kind with | .pay => 1 | .axfer => 2 | .acfg => 3
  [kindTag, strHash t.snd, strHash t.rcv, optHash strHash t.asaSnd,
   t.assetId, optHash (fun i => i.toNat * 2 + (if i < 0 then 1 else 0)) t.amt,
   t.fee, t.firstValid, t.lastValid, optHash bytesHash t.lease,
   optHash strHash t.note, t.assetTotal, t.assetDecimals,
   optHash id t.grp].foldl (fun h x => (h * 1000003 + x) % (2 ^ 64)) 2166136261

/-- Group id as a deterministic hash over the ordered transaction encodings. -/
def gidHash (txns : List Tx) : Nat :=
  txns.foldl (fun h t => (h * 16777619 + txHash t) % (2 ^ 64)) 14695981039346656037

/-- Modelled from the spec: `computeGroupId` of the external `AlgorandEncoder`
(library code absent from the repository).  Per the spec the group id is "a
deterministic hash over the ordered, group-field-cleared encodings" and the
planner "fails with `EmptyGroupError` on empty input"; the concrete hash
stands in for the library hash as a function of the ordered encodings. -/
def computeGroupId (txns : List Tx) : Except Err Nat :=
  if txns.isEmpty then .error .emptyGroup
  else .ok (gidHash txns)

/-- Model of `ChainService.setGroupID`: compute the group id over the input encodings,
then decode each transaction, stamp `grp`, and re-encode, preserving order
(decode and encode are the identity in the model, so the stamping is a record
update). -/
def setGroupID (txns : List Tx) : Except Err (List Tx) := do
  let groupId ← computeGroupId txns
  pure (txns.map fun txn => { txn with grp := some groupId })

/-- Snapshot of everything `WalletService.transferAsset` reads from the vault
and the ledger before building transactions: the receiver address resolved
from the user's custody key, the manager address, the suggested params, the
`getAccountAsset` answer (`none` models the 404 / null "not opted in" case),
and the receiver's `getAccountDetail` amount and min-balance. -/
structure TransferAssetEnv where
  userPublicAddress : Address
  managerPublicAddress : Address
  params : SuggestedParams
  accountAsset : Option Unit
  accountAmount : Nat
  accountMinBalance : Nat
deriving DecidableEq, Repr

/-- Build phase of `WalletService.transferAsset` (lines 282-342): decide the
opt-in and funding transactions and push them, in order, before the primary
transfer.  Mirrors the mutable locals `willOptInTx`, `userExtraAlgoNeed`,
`userOwnedExtraAlgo`, `willPaymentTx` and the three conditional pushes. -/
def transferAssetUnsignedTxs (env : TransferAssetEnv) (assetId : Nat)
    (amount : Int) (lease : Option Bytes) (note : Option String) :
    Except Err (List Tx) := do
  let willOptInTx : Bool := env.accountAsset.isNone
  let userExtraAlgoNeed : Int :=
    if willOptInTx then 0 + 100000 + env.params.minFee else 0
  let userOwnedExtraAlgo : Int :=
    (env.accountAmount : Int) - (env.accountMinBalance : Int)
  let willPaymentTx : Bool := userOwnedExtraAlgo < userExtraAlgoNeed
  let userExtraAlgoNeed : Int :=
    if willPaymentTx then userExtraAlgoNeed - userOwnedExtraAlgo
    else userExtraAlgoNeed
  let fundingTxs : List Tx :=
    if willPaymentTx then
      [craftPaymentTx env.managerPublicAddress env.userPublicAddress
        userExtraAlgoNeed env.params]
    else []
  let optInTxs : List Tx ←
    if willOptInTx then do
      let t ← craftAssetTransferTxCore env.userPublicAddress
        env.userPublicAddress assetId 0 lease none env.params
      pure [t]
    else pure []
  let primary ← craftAssetTransferTxCore env.managerPublicAddress
    env.userPublicAddress assetId amount lease note env.params
  pure (fundingTxs ++ optInTxs ++ [primary])

/-- Result of one `v2/transactions/pending/{txId}` poll, as `waitConfirmation`
inspects it: a confirmed round, a pool error, neither (still pending), or a
failure of the request itself (e.g. a transient 404 from a load balancer). -/
inductive PollResult where
  | confirmed (round : Nat)
  | poolErr (msg : String)
  | pending
  | queryFailure
deriving DecidableEq, Repr

/-- Pending-transaction information returned on a confirmed poll. -/
structure PendingInfo where
  confirmedRound : Nat
deriving DecidableEq, Repr

/-- Loop body of `ChainService.waitConfirmation`, with `fuel` the number of
rounds left before `stopRound` and `current` the round counter.  Returns the
list of rounds at which a poll was issued together with the outcome: the
pending info on a confirmed round, `none` when the round budget runs out, and
an error when a poll observed a pool error (the catch block rethrows exactly
when `poolError` was set; any other poll failure is absorbed and the loop
waits for the next round and continues). -/
def waitLoop (polls : Nat → PollResult) :
    Nat → Nat → List Nat × Except Err (Option PendingInfo)
  | _, 0 => ([], .ok none)
  | current, fuel + 1 =>
    match polls current with
    | .confirmed r => ([current], .ok (some ⟨r⟩))
    | .poolErr m => ([current], .error (.rejected ("Transaction Rejected: " ++ m)))
    | .pending =>
        let rest := waitLoop polls (current + 1) fuel
        (current :: rest.1, rest.2)
    | .queryFailure =>
        let rest := waitLoop polls (current + 1) fuel
        (current :: rest.1, rest.2)

/-- Model of `ChainService.waitConfirmation`: poll from the node's current last round
for at most `waitRounds` rounds (default 20). -/
def waitConfirmation (polls : Nat → PollResult) (startRound : Nat)
    (waitRounds : Nat := 20) : List Nat × Except Err (Option PendingInfo) :=
  waitLoop polls startRound waitRounds

/-- Environment of `ChainService.submitTransaction`: the txId the node returns
for the POST, the node's last round at that moment, and the pending-status
answer for each subsequent polling round. -/
structure SubmitEnv where
  txid : String
  lastRound : Nat
  polls : Nat → PollResult

/-- Mirror of `TruncatedPostTransactionsResponse`. -/
structure PostTransactionsResponse where
  txid : String
deriving DecidableEq, Repr

/-- Model of `ChainService.submitTransaction`: POST the bytes, read the txId, then
`await waitConfirmation(txid)` — an error thrown there propagates, but a
normal return (confirmed or round budget exhausted) is discarded and the
response carries only the txId. -/
def submitTransaction (env : SubmitEnv) : Except Err PostTransactionsResponse :=
  match (waitConfirmation env.polls env.lastRound 20).2 with
  | .error e => .error e
  | .ok _ => .ok ⟨env.txid⟩

/-- Mirror of the `User` DTO: declared id, claimed public address, and type. -/
inductive UserType where
  | user
  | manager
deriving DecidableEq, Repr

/-- Declared participant of a group transaction (`send-group.dto.ts`). -/
structure UserRef where
  id : String
  public_address : Address
  type : UserType
deriving DecidableEq, Repr

/-- Payload union of the `Transaction` DTO: `AlgoTransferRequestDto`,
`AssetTransferRequestDto`, or `CreateAssetDto` (asset parameters beyond total
and decimals do not influence the orchestration logic and are carried by the
crafted transaction only through the crafting call). -/
inductive GroupTxn where
  | algoTransfer (sender receiver : UserRef) (amount : Int)
  | assetTransfer (sender receiver : UserRef) (assetId : Nat) (amount : Int)
  | createAsset (sender : UserRef) (total : Nat) (decimals : Nat)
deriving DecidableEq, Repr

/-- Declared sender of a group transaction. -/
def GroupTxn.sender : GroupTxn → UserRef
  | .algoTransfer s _ _ => s
  | .assetTransfer s _ _ _ => s
  | .createAsset s _ _ => s

/-- Declared receiver, when the payload has one (`'receiver' in tx.txn`). -/
def GroupTxn.receiver : GroupTxn → Option UserRef
  | .algoTransfer _ r _ => some r
  | .assetTransfer _ r _ _ => some r
  | .createAsset _ _ _ => none

/-- One member of a `SendGroupDto`: the payload plus the per-member fee
(default 1000 micro-units). -/
structure GroupTransaction where
  txn : GroupTxn
  fee : Nat := 1000
deriving DecidableEq, Repr

/-- Custody responses used by `sendGroup` and `transferAlgoToAddress`:
`encodeAddress` of `getUserPublicKey(id)` for user-type participants, of
`getNamedManagerPublicKey(id)` for manager-type participants, and of
`getManagerPublicKey()` for the default manager key. -/
structure CustodyEnv where
  userKey : String → Address
  namedManagerKey : String → Address
  managerKey : Address

/-- Address `sendGroup` independently resolves from custody for a declared
participant, by type. -/
def resolveAddress (env : CustodyEnv) (u : UserRef) : Address :=
  match u.type with
  | .user => env.userKey u.id
  | .manager => env.namedManagerKey u.id

/-- Validation list built by the first loop of `sendGroup`: for each
transaction, the declared sender paired with its custody-resolved address,
then the declared receiver (when present) paired with its custody-resolved
address. -/
def collectUsers (env : CustodyEnv) (txns : List GroupTxn) :
    List (UserRef × Address) :=
  txns.flatMap fun tx =>
    (tx.sender, resolveAddress env tx.sender) ::
      (match tx.receiver with
       | some r => [(r, resolveAddress env r)]
       | none => [])

/-- Model of `craftAssetCreateTx` with suggested params in hand (body of the
`createAsset` builder chain in `chain.service.ts`). -/
def craftAssetCreateTxCore (creatorAddress : Address) (total decimals : Nat)
    (sp : SuggestedParams) : Tx :=
  { kind := .acfg, snd := creatorAddress, assetTotal := total,
    assetDecimals := decimals, fee := sp.minFee, firstValid := sp.lastRound,
    lastValid := sp.lastRound + 1000 }

/-- Crafting of one group member per its declared kind, as in the second loop
of `sendGroup`: payments and asset creations go through `ChainService`
crafting with `minFee` overridden by the member fee; asset transfers go
through the algosdk builder with a flat fee equal to the member fee.  All
paths craft from the claimed `public_address` strings. -/
def craftGroupMember (sp : SuggestedParams) (g : GroupTransaction) : Tx :=
  match g.txn with
  | .algoTransfer s r amount =>
      craftPaymentTx s.public_address r.public_address amount
        { sp with minFee := g.fee }
  | .assetTransfer s r assetId amount =>
      { kind := .axfer, snd := s.public_address, rcv := r.public_address,
        assetId := assetId, amt := if amount ≠ 0 then some amount else none,
        fee := g.fee, firstValid := sp.lastRound,
        lastValid := sp.lastRound + 1000 }
  | .createAsset s total decimals =>
      craftAssetCreateTxCore s.public_address total decimals
        { sp with minFee := g.fee }

/-- Observable side-effect steps of `sendGroup` after validation, in order. -/
inductive Event where
  | crafted (i : Nat)
  | grouped
  | signedAsUser (id : String)
  | signedAsNamedManager (id : String)
  | submitted
deriving DecidableEq, Repr

/-- Signing route chosen for a group member by its declared sender type:
`signTxAsUser(sender.id)` for users, `signTxAsNamedManager(sender.id)` for
managers. -/
def signerEvent (u : UserRef) : Event :=
  match u.type with
  | .user => .signedAsUser u.id
  | .manager => .signedAsNamedManager u.id

/-- Mirror of `SendGroupResponseDto`; `signed_transactions` holds the grouped
encodings the code base64-encodes into the response. -/
structure SendGroupResponse where
  transaction_id : String
  signed_transactions : List Tx
deriving DecidableEq, Repr

/-- Model of `WalletService.sendGroup`: resolve every declared sender and receiver
address from custody, reject the whole group (`Invalid users`) unless all
claimed addresses match, then craft each member per its kind, stamp the group
id, sign each member by its declared sender's route, and submit the bundle.
Returns the trace of post-validation side effects and the response. -/
def sendGroup (env : CustodyEnv) (sp : SuggestedParams) (submitTxid : String)
    (group : List GroupTransaction) :
    List Event × Except Err SendGroupResponse :=
  let users := collectUsers env (group.map (·.txn))
  let areUsersValid := users.all fun u => u.2 = u.1.public_address
  if !areUsersValid then ([], .error .addressMismatch)
  else
    let unSignedTxs := group.map (craftGroupMember sp)
    let craftEvents := (List.range group.length).map Event.crafted
    match setGroupID unSignedTxs with
    | .error e => (craftEvents, .error e)
    | .ok unSignedGroupedTxns =>
        let signEvents := group.map fun g => signerEvent g.txn.sender
        (craftEvents ++ [Event.grouped] ++ signEvents ++ [Event.submitted],
          .ok { transaction_id := submitTxid,
                signed_transactions := unSignedGroupedTxns })

/-- Signing authority used for a simple transfer. -/
inductive Signer where
  | manager
  | user (id : String)
deriving DecidableEq, Repr

/-- Outcome of the sender-routing and signing decisions of
`transferAlgoToAddress`. -/
structure TransferAlgoResult where
  fromAddress : Address
  tx : Tx
  signer : Signer
deriving Repr

/-- Model of `WalletService.transferAlgoToAddress`: the sender address comes from the
default manager key exactly when `fromUserId === 'manager'` and from the
per-user custody key otherwise; the crafted payment is then signed as manager
or as that user by the same string comparison. -/
def transferAlgoToAddress (env : CustodyEnv) (sp : SuggestedParams)
    (fromUserId : String) (toAddress : Address) (amount : Int) :
    TransferAlgoResult :=
  let fromAddress :=
    if fromUserId = "manager" then env.managerKey else env.userKey fromUserId
  let payTx := craftPaymentTx fromAddress toAddress amount sp
  let signer :=
    if fromUserId = "manager" then Signer.manager else Signer.user fromUserId
  { fromAddress := fromAddress, tx := payTx, signer := signer }

/-! Concrete sample values used by the witness theorems. -/

/-- Sample suggested params. -/
def spW : SuggestedParams := { lastRound := 100, minFee := 1000 }

/-- Sample `transferAsset` snapshot: receiver not opted in and short of the
min-balance (balance 50000, min-balance 100000). -/
def taEnvW : TransferAssetEnv :=
  { userPublicAddress := "USER", managerPublicAddress := "MGR", params := spW,
    accountAsset := none, accountAmount := 50000, accountMinBalance := 100000 }

/-- Sample `transferAsset` snapshot: receiver already opted in with ample
balance. -/
def taEnvW2 : TransferAssetEnv :=
  { userPublicAddress := "USER", managerPublicAddress := "MGR", params := spW,
    accountAsset := some (), accountAmount := 500000, accountMinBalance := 100000 }

/-- Funding payment built for `taEnvW`: 151000 = (100000 + 1000) − (−50000). -/
def fundTxW : Tx :=
  { kind := .pay, snd := "MGR", rcv := "USER", amt := some 151000, fee := 1000,
    firstValid := 100, lastValid := 1100 }

/-- Opt-in built for `taEnvW`: zero-amount self-transfer of asset 5. -/
def optInTxW : Tx :=
  { kind := .axfer, snd := "USER", rcv := "USER", assetId := 5, fee := 1000,
    firstValid := 100, lastValid := 1100 }

/-- Primary transfer of 10 units of asset 5 from the manager. -/
def primTxW : Tx :=
  { kind := .axfer, snd := "MGR", rcv := "USER", assetId := 5, amt := some 10,
    fee := 1000, firstValid := 100, lastValid := 1100 }

/-- Bundle built by `transferAsset` for `taEnvW`. -/
def txsW : List Tx := [fundTxW, optInTxW, primTxW]

/-- Bundle built by `transferAsset` for `taEnvW2`. -/
def txsW2 : List Tx := [primTxW]

/-! Helper lemmas about the crafting layer. -/

/-- Fields of a successfully crafted asset transfer. -/
lemma craftAssetTransferTxCore_ok_fields (fromAddr toAddr : Address)
    (assetId : Nat) (amount : Int) (lease : Option Bytes)
    (note : Option String) (sp : SuggestedParams) (t : Tx)
    (h : craftAssetTransferTxCore fromAddr toAddr assetId amount lease note sp
      = .ok t) :
    t.kind = .axfer ∧ t.snd = fromAddr ∧ t.rcv = toAddr ∧
    t.assetId = assetId ∧ t.amountValue = amount := by
  rcases lease with _ | l
  · simp only [craftAssetTransferTxCore, Except.ok.injEq] at h
    subst h
    by_cases ha : amount = 0 <;> simp [Tx.amountValue, ha]
  · by_cases hl : l.length = 32
    · simp only [craftAssetTransferTxCore, addLease, parseLease, hl, if_true,
        Except.ok.injEq] at h
      subst h
      by_cases ha : amount = 0 <;> simp [Tx.amountValue, ha]
    · simp [craftAssetTransferTxCore, addLease, parseLease, hl] at h

/-- Crafting success depends only on the lease, so one successful crafting
transports to any other field choice with the same lease. -/
lemma craftAssetTransferTxCore_lease_ok (f₁ t₁ f₂ t₂ : Address) (a₁ a₂ : Nat)
    (amt₁ amt₂ : Int) (lease : Option Bytes) (n₁ n₂ : Option String)
    (sp₁ sp₂ : SuggestedParams) (t : Tx)
    (h : craftAssetTransferTxCore f₁ t₁ a₁ amt₁ lease n₁ sp₁ = .ok t) :
    ∃ q, craftAssetTransferTxCore f₂ t₂ a₂ amt₂ lease n₂ sp₂ = .ok q := by
  rcases lease with _ | l
  · exact ⟨_, rfl⟩
  · by_cases hl : l.length = 32
    · simp [craftAssetTransferTxCore, addLease, parseLease, hl]
    · simp [craftAssetTransferTxCore, addLease, parseLease, hl] at h

/-- Shape of a successful `transferAsset` build: the optional funding payment
(computed from the slack and the extra need), then the optional opt-in, then
the primary transfer. -/
lemma transferAssetUnsignedTxs_ok_shape (env : TransferAssetEnv)
    (assetId : Nat) (amount : Int) (lease : Option Bytes)
    (note : Option String) (txs : List Tx)
    (h : transferAssetUnsignedTxs env assetId amount lease note = .ok txs) :
    ∃ optTx primTx,
      craftAssetTransferTxCore env.userPublicAddress env.userPublicAddress
        assetId 0 lease none env.params = .ok optTx ∧
      craftAssetTransferTxCore env.managerPublicAddress env.userPublicAddress
        assetId amount lease note env.params = .ok primTx ∧
      txs =
        (if (env.accountAmount : Int) - env.accountMinBalance <
            (if env.accountAsset.isNone then 100000 + (env.params.minFee : Int)
             else 0) then
          [craftPaymentTx env.managerPublicAddress env.userPublicAddress
            ((if env.accountAsset.isNone then 100000 + (env.params.minFee : Int)
              else 0) -
              ((env.accountAmount : Int) - env.accountMinBalance)) env.params]
        else []) ++
        (if env.accountAsset.isNone then [optTx] else []) ++ [primTx] := by
  unfold transferAssetUnsignedTxs at h
  rcases henv : env.accountAsset with _ | u <;> rw [henv] at h <;>
    simp only [Option.isNone_none, Option.isNone_some, if_true, if_false,
      Bool.false_eq_true, bind, pure] at h
  · have hopt : ∃ o, craftAssetTransferTxCore env.userPublicAddress
        env.userPublicAddress assetId 0 lease none env.params = .ok o := by
      cases ho : craftAssetTransferTxCore env.userPublicAddress
          env.userPublicAddress assetId 0 lease none env.params with
      | error e =>
          rw [ho] at h
          simp [Except.bind, Except.pure] at h
      | ok o => exact ⟨o, rfl⟩
    obtain ⟨o, ho⟩ := hopt
    rw [ho] at h
    simp only [Except.bind, Except.pure] at h
    have hprim : ∃ p, craftAssetTransferTxCore env.managerPublicAddress
        env.userPublicAddress assetId amount lease note env.params = .ok p := by
      cases hp : craftAssetTransferTxCore env.managerPublicAddress
          env.userPublicAddress assetId amount lease note env.params with
      | error e =>
          rw [hp] at h
          simp [Except.bind, Except.pure] at h
      | ok p => exact ⟨p, rfl⟩
    obtain ⟨p, hp⟩ := hprim
    rw [hp] at h
    simp only [Except.bind, Except.pure, Except.ok.injEq] at h
    refine ⟨o, p, ho, hp, ?_⟩
    rw [← h]
    simp only [henv, Option.isNone_none, if_true, decide_eq_true_eq, zero_add]
    by_cases hpay : (env.accountAmount : Int) - env.accountMinBalance <
        100000 + (env.params.minFee : Int) <;> simp [hpay]
  · have hprim : ∃ p, craftAssetTransferTxCore env.managerPublicAddress
        env.userPublicAddress assetId amount lease note env.params = .ok p := by
      cases hp : craftAssetTransferTxCore env.managerPublicAddress
          env.userPublicAddress assetId amount lease note env.params with
      | error e =>
          rw [hp] at h
          simp [Except.bind, Except.pure] at h
      | ok p => exact ⟨p, rfl⟩
    obtain ⟨p, hp⟩ := hprim
    obtain ⟨o, ho⟩ := craftAssetTransferTxCore_lease_ok
      env.managerPublicAddress env.userPublicAddress
      env.userPublicAddress env.userPublicAddress assetId assetId amount 0
      lease note none env.params env.params p hp
    rw [hp] at h
    simp only [Except.bind, Except.pure, Except.ok.injEq] at h
    refine ⟨o, p, ho, hp, ?_⟩
    rw [← h]
    simp only [henv, Option.isNone_some, if_false, Bool.false_eq_true,
      decide_eq_true_eq, zero_add]
    by_cases hpay : (env.accountAmount : Int) - env.accountMinBalance <
        (0 : Int) <;> simp [hpay]

/-- C1: in `transferAsset`, with `extraMinBalanceNeeded` the opt-in reserve
(100000 micro-units) plus one transaction fee when an opt-in is required and 0
otherwise, and `ownedSlack` the receiver's balance minus its min-balance
requirement (possibly negative), a funding payment from the manager to the
receiver is in the built bundle if and only if
`ownedSlack < extraMinBalanceNeeded`, and its amount is
`extraMinBalanceNeeded − ownedSlack`. -/
theorem C1_transferAsset_funding (env : TransferAssetEnv) (assetId : Nat)
    (amount : Int) (lease : Option Bytes) (note : Option String)
    (txs : List Tx)
    (h : transferAssetUnsignedTxs env assetId amount lease note = .ok txs) :
    ((∃ t ∈ txs, t.kind = .pay) ↔
      (env.accountAmount : Int) - env.accountMinBalance <
        (if env.accountAsset.isNone then 100000 + (env.params.minFee : Int)
         else 0)) ∧
    (∀ t ∈ txs, t.kind = .pay →
      t.snd = env.managerPublicAddress ∧ t.rcv = env.userPublicAddress ∧
      t.amountValue =
        (if env.accountAsset.isNone then 100000 + (env.params.minFee : Int)
         else 0) -
          ((env.accountAmount : Int) - env.accountMinBalance)) := by
  obtain ⟨o, p, ho, hp, htxs⟩ :=
    transferAssetUnsignedTxs_ok_shape env assetId amount lease note txs h
  have hok := (craftAssetTransferTxCore_ok_fields _ _ _ _ _ _ _ _ ho).1
  have hpk := (craftAssetTransferTxCore_ok_fields _ _ _ _ _ _ _ _ hp).1
  subst htxs
  rcases hassetE : env.accountAsset with _ | u
  · simp only [hassetE, Option.isNone_none, if_true]
    by_cases hpay : (env.accountAmount : Int) - env.accountMinBalance <
        100000 + (env.params.minFee : Int)
    · rw [if_pos hpay]
      refine ⟨⟨fun _ => hpay, fun _ =>
        ⟨craftPaymentTx env.managerPublicAddress env.userPublicAddress
          (100000 + (env.params.minFee : Int) -
            ((env.accountAmount : Int) - env.accountMinBalance)) env.params,
          by simp, rfl⟩⟩, ?_⟩
      intro t ht hk
      simp at ht
      rcases ht with rfl | rfl | rfl
      · exact ⟨rfl, rfl, by simp [craftPaymentTx, Tx.amountValue]⟩
      · rw [hok] at hk; cases hk
      · rw [hpk] at hk; cases hk
    · rw [if_neg hpay]
      constructor
      · constructor
        · rintro ⟨t, ht, hk⟩
          simp at ht
          rcases ht with rfl | rfl
          · rw [hok] at hk; cases hk
          · rw [hpk] at hk; cases hk
        · intro hc; exact absurd hc hpay
      · intro t ht hk
        simp at ht
        rcases ht with rfl | rfl
        · rw [hok] at hk; cases hk
        · rw [hpk] at hk; cases hk
  · simp only [hassetE, Option.isNone_some, Bool.false_eq_true, if_false]
    by_cases hpay : (env.accountAmount : Int) - env.accountMinBalance < (0 : Int)
    · rw [if_pos hpay]
      refine ⟨⟨fun _ => hpay, fun _ =>
        ⟨craftPaymentTx env.managerPublicAddress env.userPublicAddress
          (0 - ((env.accountAmount : Int) - env.accountMinBalance)) env.params,
          by simp, rfl⟩⟩, ?_⟩
      intro t ht hk
      simp at ht
      rcases ht with rfl | rfl
      · exact ⟨rfl, rfl, by simp [craftPaymentTx, Tx.amountValue]⟩
      · rw [hpk] at hk; cases hk
    · rw [if_neg hpay]
      constructor
      · constructor
        · rintro ⟨t, ht, hk⟩
          simp at ht
          rcases ht with rfl
          rw [hpk] at hk; cases hk
        · intro hc; exact absurd hc hpay
      · intro t ht hk
        simp at ht
        rcases ht with rfl
        rw [hpk] at hk; cases hk

/-- Witness for C1 at the sample snapshot `taEnvW` (not opted in, balance
50000, min-balance 100000, fee 1000): the bundle contains a funding payment
since the slack −50000 is below the 101000 needed, and every funding payment
in it goes from the manager to the receiver for 151000. -/
theorem C1_witness :
    ((∃ t ∈ txsW, t.kind = .pay) ↔
      (taEnvW.accountAmount : Int) - taEnvW.accountMinBalance <
        (if taEnvW.accountAsset.isNone then
          100000 + (taEnvW.params.minFee : Int) else 0)) ∧
    (∀ t ∈ txsW, t.kind = .pay →
      t.snd = taEnvW.managerPublicAddress ∧ t.rcv = taEnvW.userPublicAddress ∧
      t.amountValue =
        (if taEnvW.accountAsset.isNone then
          100000 + (taEnvW.params.minFee : Int) else 0) -
          ((taEnvW.accountAmount : Int) - taEnvW.accountMinBalance)) :=
  C1_transferAsset_funding taEnvW 5 10 none none txsW (by rfl)

/-- C5: in `transferAsset`, whenever the receiver's holding of the asset is
absent, the built bundle contains an opt-in transaction that is a zero-amount
asset transfer from the receiver to itself; and the bundle always decomposes
as funding payments (when emitted), then opt-ins (when emitted), then the
primary asset transfer from the manager. -/
theorem C5_transferAsset_optin_order (env : TransferAssetEnv) (assetId : Nat)
    (amount : Int) (lease : Option Bytes) (note : Option String)
    (txs : List Tx)
    (h : transferAssetUnsignedTxs env assetId amount lease note = .ok txs) :
    ∃ funding optin primTx,
      txs = funding ++ optin ++ [primTx] ∧
      (∀ t ∈ funding, t.kind = .pay ∧ t.snd = env.managerPublicAddress ∧
        t.rcv = env.userPublicAddress) ∧
      (∀ t ∈ optin, t.kind = .axfer ∧ t.snd = env.userPublicAddress ∧
        t.rcv = env.userPublicAddress ∧ t.assetId = assetId ∧
        t.amountValue = 0) ∧
      (env.accountAsset = none → optin ≠ []) ∧
      (env.accountAsset ≠ none → optin = []) ∧
      primTx.kind = .axfer ∧ primTx.snd = env.managerPublicAddress ∧
      primTx.rcv = env.userPublicAddress ∧ primTx.assetId = assetId ∧
      primTx.amountValue = amount := by
  obtain ⟨o, p, ho, hp, htxs⟩ :=
    transferAssetUnsignedTxs_ok_shape env assetId amount lease note txs h
  obtain ⟨ho1, ho2, ho3, ho4, ho5⟩ :=
    craftAssetTransferTxCore_ok_fields _ _ _ _ _ _ _ _ ho
  obtain ⟨hp1, hp2, hp3, hp4, hp5⟩ :=
    craftAssetTransferTxCore_ok_fields _ _ _ _ _ _ _ _ hp
  rcases henv : env.accountAsset with _ | u <;>
    simp only [henv, Option.isNone_none, Option.isNone_some, if_true,
      Bool.false_eq_true, if_false] at htxs
  · by_cases hpay : (env.accountAmount : Int) - env.accountMinBalance <
        100000 + (env.params.minFee : Int)
    · rw [if_pos hpay] at htxs
      refine ⟨[craftPaymentTx env.managerPublicAddress env.userPublicAddress
          (100000 + (env.params.minFee : Int) -
            ((env.accountAmount : Int) - env.accountMinBalance)) env.params],
        [o], p, htxs, ?_, ?_, fun _ => by simp, fun hs => absurd rfl hs,
        hp1, hp2, hp3, hp4, hp5⟩
      · intro t ht
        simp only [List.mem_singleton] at ht
        subst ht
        exact ⟨rfl, rfl, rfl⟩
      · intro t ht
        simp only [List.mem_singleton] at ht
        subst ht
        exact ⟨ho1, ho2, ho3, ho4, ho5⟩
    · rw [if_neg hpay] at htxs
      refine ⟨[], [o], p, htxs, by simp, ?_, fun _ => by simp,
        fun hs => absurd rfl hs, hp1, hp2, hp3, hp4, hp5⟩
      intro t ht
      simp only [List.mem_singleton] at ht
      subst ht
      exact ⟨ho1, ho2, ho3, ho4, ho5⟩
  · by_cases hpay : (env.accountAmount : Int) - env.accountMinBalance < (0 : Int)
    · rw [if_pos hpay] at htxs
      refine ⟨[craftPaymentTx env.managerPublicAddress env.userPublicAddress
          (0 - ((env.accountAmount : Int) - env.accountMinBalance)) env.params],
        [], p, htxs, ?_, by simp,
        (by intro hn; cases hn), fun _ => rfl,
        hp1, hp2, hp3, hp4, hp5⟩
      intro t ht
      simp only [List.mem_singleton] at ht
      subst ht
      exact ⟨rfl, rfl, rfl⟩
    · rw [if_neg hpay] at htxs
      exact ⟨[], [], p, htxs, by simp, by simp,
        (by intro hn; cases hn), fun _ => rfl,
        hp1, hp2, hp3, hp4, hp5⟩

/-- Witness for C5 at the sample snapshot `taEnvW2` (already opted in, ample
balance): the successful build decomposes with empty auxiliary parts. -/
theorem C5_witness :
    txsW2 = ([] : List Tx) ++ ([] : List Tx) ++ [primTxW] ∧
    primTxW.kind = .axfer ∧ primTxW.snd = taEnvW2.managerPublicAddress := by
  obtain ⟨funding, optin, primTx, h1, h2, h3, h4, h5, h6, h7, -⟩ :=
    C5_transferAsset_optin_order taEnvW2 5 10 none none txsW2 (by rfl)
  have hoptin : optin = [] := h5 (by simp [taEnvW2])
  subst hoptin
  rcases funding with _ | ⟨t, rest⟩
  · simp only [List.nil_append] at h1
    have hpe : primTx = primTxW := by
      have h1x := h1
      simp only [txsW2, List.cons.injEq, and_true] at h1x
      exact h1x.symm
    refine ⟨by simp [txsW2, hpe], ?_, ?_⟩
    · rw [← hpe]; exact h6
    · rw [← hpe]; exact h7
  · exfalso
    have hlen := congrArg List.length h1
    simp [txsW2] at hlen

/-- C7: `setGroupID` fails with `EmptyGroupError` on an empty transaction
sequence (the group id computation rejects empty input). -/
theorem C7_setGroupID_empty : setGroupID ([] : List Tx) = .error .emptyGroup :=
  rfl

/-- C6: for every non-empty list of encoded transactions, `setGroupID`
succeeds and returns a list of the same length in the same order, in which
each element is the re-encoding of the corresponding input with its group
field set to the single group id computed as a hash over the input encodings
in the given order; every member of the output carries that same group id. -/
theorem C6_setGroupID_spec (txns : List Tx) (h : txns ≠ []) :
    ∃ out, setGroupID txns = .ok out ∧
      out.length = txns.length ∧
      (∀ i : Nat, out[i]? =
        (txns[i]?).map fun txn => { txn with grp := some (gidHash txns) }) ∧
      ∀ t ∈ out, t.grp = some (gidHash txns) := by
  refine ⟨txns.map fun txn => { txn with grp := some (gidHash txns) }, ?_, by
    simp, ?_, ?_⟩
  · simp [setGroupID, computeGroupId, List.isEmpty_iff, h, bind, Except.bind,
      pure, Except.pure]
  · intro i
    simp [List.getElem?_map]
  · intro t ht
    simp only [List.mem_map] at ht
    obtain ⟨s, -, rfl⟩ := ht
    rfl

/-- Sample transactions for the group-planner witness. -/
def txGA : Tx :=
  { kind := .pay, snd := "A", rcv := "B", amt := some 1, fee := 1000,
    firstValid := 1, lastValid := 1001 }

/-- Second sample transaction for the group-planner witness. -/
def txGB : Tx :=
  { kind := .axfer, snd := "B", rcv := "A", assetId := 5, amt := some 2,
    fee := 1000, firstValid := 1, lastValid := 1001 }

/-- Witness for C6 on a concrete two-transaction group. -/
theorem C6_witness :
    ∃ out, setGroupID [txGA, txGB] = .ok out ∧
      out.length = [txGA, txGB].length ∧
      (∀ i : Nat, out[i]? =
        ([txGA, txGB][i]?).map fun txn =>
          { txn with grp := some (gidHash [txGA, txGB]) }) ∧
      ∀ t ∈ out, t.grp = some (gidHash [txGA, txGB]) :=
  C6_setGroupID_spec [txGA, txGB] (by simp)

/-- C3: during confirmation polling, a failure of the pending-status query is
absorbed and polling continues at the next round (the transaction is treated
as not yet visible), while a poll that observes a pool-error marker makes the
rejection propagate immediately: the loop issues exactly that one poll and
returns the rejection, so no further poll or retry ever occurs. -/
theorem C3_waitConfirmation_asymmetry (polls : Nat → PollResult)
    (current fuel : Nat) (m : String) (hfuel : 0 < fuel) :
    (polls current = .queryFailure →
      waitLoop polls current fuel =
        (current :: (waitLoop polls (current + 1) (fuel - 1)).1,
          (waitLoop polls (current + 1) (fuel - 1)).2)) ∧
    (polls current = .poolErr m →
      waitLoop polls current fuel =
        ([current],
          .error (.rejected ("Transaction Rejected: " ++ m)))) := by
  obtain ⟨k, rfl⟩ : ∃ k, fuel = k + 1 :=
    ⟨fuel - 1, by omega⟩
  constructor
  · intro hq
    simp [waitLoop, hq]
  · intro hq
    simp [waitLoop, hq]

/-- Polling answers for the C3 witness: a query failure at round 0, a pool
error at round 1. -/
def pollsC3 : Nat → PollResult :=
  fun n => if n = 0 then .queryFailure else
    if n = 1 then .poolErr "overspend" else .pending

/-- Witness for C3 at `pollsC3`: the round-0 query failure is absorbed and
polling continues, and the round-1 pool error terminates with the rejection
after that single poll. -/
theorem C3_witness :
    waitLoop pollsC3 0 3 =
      (0 :: (waitLoop pollsC3 (0 + 1) (3 - 1)).1,
        (waitLoop pollsC3 (0 + 1) (3 - 1)).2) ∧
    waitLoop pollsC3 1 2 =
      ([1], .error (.rejected ("Transaction Rejected: " ++ "overspend"))) :=
  ⟨(C3_waitConfirmation_asymmetry pollsC3 0 3 "overspend" (by decide)).1 rfl,
    (C3_waitConfirmation_asymmetry pollsC3 1 2 "overspend" (by decide)).2 rfl⟩

/-- Polling answers that never confirm: the pending status stays pending. -/
def pollsPendingW : Nat → PollResult := fun _ => .pending

/-- Polling answers that confirm immediately at round 7. -/
def pollsConfirmedW : Nat → PollResult := fun _ => .confirmed 7

/-- Submission environment whose polls never confirm (times out). -/
def submitEnvTimeoutW : SubmitEnv :=
  { txid := "TX1", lastRound := 0, polls := pollsPendingW }

/-- Submission environment whose polls confirm on the first round. -/
def submitEnvConfirmedW : SubmitEnv :=
  { txid := "TX1", lastRound := 0, polls := pollsConfirmedW }

/-- C4 counterexample: with the default 20-round budget exhausted and no
confirmed round ever observed, `waitConfirmation` completes with no pending
info, yet `submitTransaction` returns exactly the same successful response as
in a run whose first poll is confirmed — so the caller of the submission
pipeline receives no `TimedOut` outcome distinct from successful
confirmation. -/
theorem C4_counterexample :
    (waitConfirmation pollsPendingW 0 20).2 = .ok none ∧
    submitTransaction submitEnvTimeoutW = .ok ⟨"TX1"⟩ ∧
    submitTransaction submitEnvConfirmedW = .ok ⟨"TX1"⟩ ∧
    submitTransaction submitEnvTimeoutW = submitTransaction submitEnvConfirmedW :=
  ⟨rfl, rfl, rfl, rfl⟩

/-- Round-budget exhaustion inside the polling loop: when no poll ever
answers with a confirmed round or a pool error, the loop runs out of fuel and
returns no pending info. -/
lemma waitLoop_exhausted (polls : Nat → PollResult)
    (h : ∀ k, polls k = .pending ∨ polls k = .queryFailure) :
    ∀ fuel current, (waitLoop polls current fuel).2 = .ok none := by
  intro fuel
  induction fuel with
  | zero => intro current; rfl
  | succ n ih =>
      intro current
      rcases h current with hc | hc <;> simp [waitLoop, hc, ih]

/-- C4 amended: when the confirmation round budget is exhausted without a
confirmed round, `waitConfirmation` returns normally with no pending info —
at that level distinct from a rejection (an error) and from a confirmation
(which carries the pending info) — but `submitTransaction` discards that
return value and surfaces the same successful txId response as for a
confirmed transaction, so no distinct `TimedOut` outcome reaches the caller
of the submission pipeline. -/
theorem C4_timeout_not_distinct (env : SubmitEnv)
    (h : ∀ k, env.polls k = .pending ∨ env.polls k = .queryFailure) :
    (waitConfirmation env.polls env.lastRound 20).2 = .ok none ∧
    (∀ info : PendingInfo,
      (.ok none : Except Err (Option PendingInfo)) ≠ .ok (some info)) ∧
    (∀ e : Err, (.ok none : Except Err (Option PendingInfo)) ≠ .error e) ∧
    submitTransaction env = .ok ⟨env.txid⟩ := by
  have hmain := waitLoop_exhausted env.polls h 20 env.lastRound
  refine ⟨hmain, by simp, by simp, ?_⟩
  unfold submitTransaction
  rw [show (waitConfirmation env.polls env.lastRound 20).2 = .ok none
    from hmain]

/-- Witness for C4's amended statement at the never-confirming environment. -/
theorem C4_witness :
    (waitConfirmation submitEnvTimeoutW.polls submitEnvTimeoutW.lastRound 20).2
      = .ok none ∧
    submitTransaction submitEnvTimeoutW = .ok ⟨submitEnvTimeoutW.txid⟩ := by
  have h := C4_timeout_not_distinct submitEnvTimeoutW (fun k => Or.inl rfl)
  exact ⟨h.1, h.2.2.2⟩

/-- Declared senders always enter the validation list built by `sendGroup`. -/
lemma mem_collectUsers_sender (env : CustodyEnv) (txns : List GroupTxn)
    (tx : GroupTxn) (h : tx ∈ txns) :
    (tx.sender, resolveAddress env tx.sender) ∈ collectUsers env txns := by
  unfold collectUsers
  exact List.mem_flatMap.mpr ⟨tx, h, List.mem_cons_self _ _⟩

/-- Declared receivers, when present, also enter the validation list. -/
lemma mem_collectUsers_receiver (env : CustodyEnv) (txns : List GroupTxn)
    (tx : GroupTxn) (r : UserRef) (h : tx ∈ txns)
    (hr : tx.receiver = some r) :
    (r, resolveAddress env r) ∈ collectUsers env txns := by
  unfold collectUsers
  refine List.mem_flatMap.mpr ⟨tx, h, ?_⟩
  rw [hr]
  simp

/-- One mismatched entry in the validation list makes `sendGroup` fail with
the address-mismatch error before any side effect. -/
lemma sendGroup_invalid (env : CustodyEnv) (sp : SuggestedParams)
    (submitTxid : String) (group : List GroupTransaction)
    (h : ∃ u ∈ collectUsers env (group.map (·.txn)),
      u.2 ≠ u.1.public_address) :
    sendGroup env sp submitTxid group = ([], .error .addressMismatch) := by
  obtain ⟨u, hu, hne⟩ := h
  have hall : (collectUsers env (group.map (·.txn))).all
      (fun u => u.2 = u.1.public_address) = false := by
    by_contra hcon
    rw [Bool.not_eq_false] at hcon
    exact hne (by simpa using List.all_eq_true.mp hcon u hu)
  unfold sendGroup
  simp [hall]

/-- C2: for every group in which some transaction's declared sender has a
claimed `public_address` that differs from the address resolved from the
custody-retrieved public key for that sender identity, `sendGroup` fails with
the address-mismatch error (`Invalid users`) and the side-effect trace is
empty: nothing is crafted, signed or submitted. -/
theorem C2_sendGroup_sender_spoof (env : CustodyEnv) (sp : SuggestedParams)
    (submitTxid : String) (group : List GroupTransaction)
    (h : ∃ g ∈ group,
      resolveAddress env g.txn.sender ≠ g.txn.sender.public_address) :
    sendGroup env sp submitTxid group = ([], .error .addressMismatch) := by
  obtain ⟨g, hg, hne⟩ := h
  exact sendGroup_invalid env sp submitTxid group
    ⟨(g.txn.sender, resolveAddress env g.txn.sender),
      mem_collectUsers_sender env _ g.txn (List.mem_map_of_mem _ hg), hne⟩

/-- C9: `sendGroup` also validates receivers: a group containing a
transaction whose receiver's claimed `public_address` differs from the
custody-resolved address fails the same way before any side effect, even
when every sender's claimed address is correct. -/
theorem C9_sendGroup_receiver_validated (env : CustodyEnv)
    (sp : SuggestedParams) (submitTxid : String)
    (group : List GroupTransaction)
    (hs : ∀ g ∈ group,
      resolveAddress env g.txn.sender = g.txn.sender.public_address)
    (hr : ∃ g ∈ group, ∃ r, g.txn.receiver = some r ∧
      resolveAddress env r ≠ r.public_address) :
    sendGroup env sp submitTxid group = ([], .error .addressMismatch) := by
  obtain ⟨g, hg, r, hrec, hne⟩ := hr
  exact sendGroup_invalid env sp submitTxid group
    ⟨(r, resolveAddress env r),
      mem_collectUsers_receiver env _ g.txn r (List.mem_map_of_mem _ hg) hrec,
      hne⟩

/-- Sample custody responses: user keys resolve to `U:` addresses, named
manager keys to `M:` addresses, the default manager key to `MGR`. -/
def custodyEnvW : CustodyEnv :=
  { userKey := fun i => "U:" ++ i, namedManagerKey := fun i => "M:" ++ i,
    managerKey := "MGR" }

/-- User alice with the correct claimed address. -/
def aliceOkW : UserRef :=
  { id := "alice", public_address := "U:alice", type := .user }

/-- User bob with the correct claimed address. -/
def bobOkW : UserRef :=
  { id := "bob", public_address := "U:bob", type := .user }

/-- User alice claiming a spoofed address. -/
def aliceSpoofW : UserRef :=
  { id := "alice", public_address := "SPOOF", type := .user }

/-- User bob claiming a spoofed address. -/
def bobSpoofW : UserRef :=
  { id := "bob", public_address := "SPOOF", type := .user }

/-- Group with a spoofed sender and a correct receiver. -/
def groupSenderSpoofW : List GroupTransaction :=
  [{ txn := .algoTransfer aliceSpoofW bobOkW 5, fee := 1000 }]

/-- Group with a correct sender and a spoofed receiver. -/
def groupReceiverSpoofW : List GroupTransaction :=
  [{ txn := .algoTransfer aliceOkW bobSpoofW 5, fee := 1000 }]

/-- Witness for C2 on a concrete spoofed-sender group. -/
theorem C2_witness :
    sendGroup custodyEnvW spW "T" groupSenderSpoofW =
      ([], .error .addressMismatch) :=
  C2_sendGroup_sender_spoof custodyEnvW spW "T" groupSenderSpoofW (by decide)

/-- Witness for C9 on a concrete correct-sender, spoofed-receiver group. -/
theorem C9_witness :
    sendGroup custodyEnvW spW "T" groupReceiverSpoofW =
      ([], .error .addressMismatch) :=
  C9_sendGroup_receiver_validated custodyEnvW spW "T" groupReceiverSpoofW
    (by decide) (by decide)

/-- C10: in `transferAlgoToAddress`, sender routing is decided by exact
string equality of `fromUserId` with the literal `manager`: exactly then the
default manager key supplies the sender address and the manager signing route
is used, and for every other id the per-user key path supplies address and
signature — so the signer is never the user route for the id `manager`, and
a user key with that id can never act as the sender of a simple transfer. -/
theorem C10_transferAlgo_routing (env : CustodyEnv) (sp : SuggestedParams)
    (fromUserId : String) (toAddress : Address) (amount : Int) :
    ((transferAlgoToAddress env sp fromUserId toAddress amount).signer =
        .manager ↔ fromUserId = "manager") ∧
    (fromUserId = "manager" →
      (transferAlgoToAddress env sp fromUserId toAddress amount).fromAddress =
        env.managerKey) ∧
    (fromUserId ≠ "manager" →
      (transferAlgoToAddress env sp fromUserId toAddress amount).signer =
        .user fromUserId ∧
      (transferAlgoToAddress env sp fromUserId toAddress amount).fromAddress =
        env.userKey fromUserId) ∧
    (transferAlgoToAddress env sp fromUserId toAddress amount).signer ≠
      .user "manager" := by
  by_cases hid : fromUserId = "manager" <;>
    simp [transferAlgoToAddress, hid]

/-- Witness for C10: the literal `manager` routes to the manager key, and a
different user id routes to that user's key. -/
theorem C10_witness :
    (transferAlgoToAddress custodyEnvW spW "manager" "DEST" 5).signer =
      Signer.manager ∧
    (transferAlgoToAddress custodyEnvW spW "alice" "DEST" 5).signer =
      Signer.user "alice" ∧
    (transferAlgoToAddress custodyEnvW spW "alice" "DEST" 5).fromAddress =
      custodyEnvW.userKey "alice" :=
  ⟨(C10_transferAlgo_routing custodyEnvW spW "manager" "DEST" 5).1.mpr rfl,
    ((C10_transferAlgo_routing custodyEnvW spW "alice" "DEST" 5).2.2.1
      (by decide)).1,
    ((C10_transferAlgo_routing custodyEnvW spW "alice" "DEST" 5).2.2.1
      (by decide)).2⟩

/-- C8 amended: when the caller supplies the suggested params (as every call
site in the repository does), an asset-transfer crafting request whose
decoded lease is not exactly 32 bytes is rejected with the invalid-field
error and the crafting performs no ledger interaction. -/
theorem C8_lease_rejected_no_ledger (env : NodeEnv)
    (fromAddr toAddr : Address) (assetId : Nat) (amount : Int) (l : Bytes)
    (note : Option String) (sp : SuggestedParams) (h : l.length ≠ 32) :
    craftAssetTransferTx env fromAddr toAddr assetId amount (some l) note
      (some sp) = ([], .error (.invalidField "Invalid lease format")) := by
  simp [craftAssetTransferTx, craftAssetTransferTxCore, addLease, parseLease,
    h]

/-- Sample node environment for the crafting counterexample. -/
def nodeEnvW : NodeEnv := { params := spW }

/-- A 31-byte lease. -/
def badLeaseW : Bytes := List.replicate 31 0

/-- C8 counterexample: when the caller supplies no suggested params, the
crafter fetches them from the node first, so the wrong-length lease is
rejected only after a ledger interaction — the params query is in the trace
that precedes the invalid-field error, refuting the claim as stated. -/
theorem C8_counterexample :
    badLeaseW.length ≠ 32 ∧
    (craftAssetTransferTx nodeEnvW "MGR" "USER" 5 10 (some badLeaseW) none
      none).1 = [LedgerCall.getParams] ∧
    (craftAssetTransferTx nodeEnvW "MGR" "USER" 5 10 (some badLeaseW) none
      none).2 = .error (.invalidField "Invalid lease format") :=
  ⟨by decide, rfl, rfl⟩

/-- Witness for C8's amended statement at a concrete 31-byte lease. -/
theorem C8_witness :
    craftAssetTransferTx nodeEnvW "MGR" "USER" 5 10 (some badLeaseW) none
      (some spW) = ([], .error (.invalidField "Invalid lease format")) :=
  C8_lease_rejected_no_ledger nodeEnvW "MGR" "USER" 5 10 badLeaseW none spW
    (by decide)

end Intermezzo
